import Mathlib

/-!
Shallow embedding of the `InteractionIntegral` postprocessor (a domain-integral
fracture-parameter evaluator), translated from `src/unnamed/part_000`.
Real-valued quantities are modelled as rationals; the external
`CrackFrontDefinition` user object is modelled as a record of abstract
operations, consumed exactly the way the source consumes it.
-/

namespace InteractionIntegral

/-- A 3-vector (libMesh `RealVectorValue`). -/
abbrev Vec3 := Fin 3 → ℚ

/-- A dense 3 by 3 matrix (`ColumnMajorMatrix`; default-constructed entries are zero). -/
abbrev Mat3 := Fin 3 → Fin 3 → ℚ

def vzero : Vec3 := fun _ => 0

def mzero : Mat3 := fun _ _ => 0

/-- `ColumnMajorMatrix` matrix product, written out over the three columns. -/
def matMul (A B : Mat3) : Mat3 := fun i j => A i 0 * B 0 j + A i 1 * B 1 j + A i 2 * B 2 j

/-- `ColumnMajorMatrix::doubleContraction`: sum of entrywise products. -/
def doubleContraction (A B : Mat3) : ℚ :=
  A 0 0 * B 0 0 + A 0 1 * B 0 1 + A 0 2 * B 0 2 +
  A 1 0 * B 1 0 + A 1 1 * B 1 1 + A 1 2 * B 1 2 +
  A 2 0 * B 2 0 + A 2 1 * B 2 1 + A 2 2 * B 2 2

/-- A `SymmTensor`: 6 independent components of a symmetric rank-2 tensor. -/
structure SymmTensor where
  xx : ℚ
  yy : ℚ
  zz : ℚ
  xy : ℚ
  yz : ℚ
  xz : ℚ

def symmZero : SymmTensor := ⟨0, 0, 0, 0, 0, 0⟩

/-- Dense 3 by 3 expansion of a `SymmTensor` with mirrored off-diagonals
(source lines 131-151, the `stress` and `strain` assembly). -/
def symmToDense (s : SymmTensor) : Mat3 :=
  ![![s.xx, s.xy, s.xz], ![s.xy, s.yy, s.yz], ![s.xz, s.yz, s.zz]]

/-- The displacement-gradient matrix whose row i is the gradient of displacement
component i (source lines 153-162). -/
def gradDispMat (gx gy gz : Vec3) : Mat3 := ![gx, gy, gz]

/-- `aux_du`: only row 0 is populated, from row 0 of `_aux_grad_disp`
(source lines 126-129; the remaining entries stay zero-initialized). -/
def auxDuOf (aux_grad_disp : Mat3) : Mat3 :=
  fun i j => if i = 0 then aux_grad_disp 0 j else 0

/-- In the crack front coordinate system the crack direction is (1,0,0)
(source lines 122-124). -/
def crack_direction : Vec3 := ![1, 0, 0]

/-- The rank-2 tensor `dq` whose row 0 is `crack_direction(0) * grad_q_cf` and
whose other rows are zero (source lines 176-179). -/
def dqOf (grad_q_cf : Vec3) : Mat3 :=
  fun i j => if i = 0 then crack_direction 0 * grad_q_cf j else 0

/-- The external `CrackFrontDefinition` user object, modelled as the record of
operations the source invokes on it, each taking the crack-front point index. -/
structure CrackFrontDefinition where
  rotateToCrackFrontCoordsV : ℕ → Vec3 → Vec3
  rotateToCrackFrontCoordsT : ℕ → Mat3 → Mat3
  treatAs2D : Bool
  getCrackFrontForwardSegmentLength : ℕ → ℚ
  getCrackFrontBackwardSegmentLength : ℕ → ℚ
  getCrackFrontTangentialStrain : ℕ → ℚ
  DomainIntegralQFunction : ℕ → ℕ → ℕ → ℚ
  DomainIntegralTopologicalQFunction : ℕ → ℕ → ℕ → ℚ

/-- The `q_function_type` MooseEnum: Geometry or Topology. -/
inductive QFunctionType
  | Geometry
  | Topology

/-- The object parameters the claims depend on, as read in the constructor
(source lines 49-84). -/
structure Params where
  crack_front_point_index : ℕ
  has_temp : Bool
  K_factor : ℚ
  has_symmetry_plane : Bool
  t_stress : Bool
  poissonsRatioParam : ℚ
  ring_index : ℕ
  q_function_type : QFunctionType

/-- Field and material data at one quadrature point, as read from the coupled
variables and material properties. -/
structure QpFieldData where
  stress : SymmTensor
  strain : SymmTensor
  grad_disp_x : Vec3
  grad_disp_y : Vec3
  grad_disp_z : Vec3
  grad_temp : Vec3
  aux_stress : Mat3
  aux_grad_disp : Mat3
  thermal_coef : ℚ

/-- All per-quadrature-point inputs of the integrand kernel: the interpolated
weight `scalar_q`, its gradient `grad_q`, and the field data. -/
structure QpData where
  scalar_q : ℚ
  grad_q : Vec3
  stress : SymmTensor
  strain : SymmTensor
  grad_disp_x : Vec3
  grad_disp_y : Vec3
  grad_disp_z : Vec3
  grad_temp : Vec3
  aux_stress : Mat3
  aux_grad_disp : Mat3
  thermal_coef : ℚ

/-- Term1 = `aux_du.doubleContraction(dq * stress_cf)` (source lines 183-185). -/
def term1Of (aux_du dq stress_cf : Mat3) : ℚ :=
  doubleContraction aux_du (matMul dq stress_cf)

/-- Term2 (source lines 187-190): with `tmp2 = dq * aux_stress`,
`grad_disp_cf(0,0)*tmp2(0,0) + grad_disp_cf(1,0)*tmp2(0,1) + grad_disp_cf(2,0)*tmp2(0,2)`. -/
def term2Of (grad_disp_cf dq aux_stress : Mat3) : ℚ :=
  grad_disp_cf 0 0 * matMul dq aux_stress 0 0 +
  grad_disp_cf 1 0 * matMul dq aux_stress 0 1 +
  grad_disp_cf 2 0 * matMul dq aux_stress 0 2

/-- Term3 = `dq(0,0) * aux_stress.doubleContraction(strain_cf)` (source lines 192-193). -/
def term3Of (dq aux_stress strain_cf : Mat3) : ℚ :=
  dq 0 0 * doubleContraction aux_stress strain_cf

/-- Term4, the thermal strain term (source lines 195-204): zero unless
temperature is coupled, otherwise `scalar_q * trace(aux_stress) * coef *
grad_temp_cf(0)`. -/
def term4Of (has_temp : Bool) (scalar_q : ℚ) (aux_stress : Mat3) (coef : ℚ)
    (grad_temp_cf : Vec3) : ℚ :=
  if has_temp then
    scalar_q * (aux_stress 0 0 + aux_stress 1 1 + aux_stress 2 2) * coef * grad_temp_cf 0
  else 0

/-- The normalization divisor `q_avg_seg` (source lines 206-213): 1 when the
front is treated as 2D, otherwise the average of the forward and backward
crack-front segment lengths at the point. -/
def qAvgSeg (cfd : CrackFrontDefinition) (idx : ℕ) : ℚ :=
  if cfd.treatAs2D then 1
  else (cfd.getCrackFrontForwardSegmentLength idx +
        cfd.getCrackFrontBackwardSegmentLength idx) / 2

/-- The body of `computeQpIntegral` after the nodal interpolation of `q`
(source lines 122-220): assemble tensors, rotate into the crack-front frame,
form the four terms, double for a declared symmetry plane, normalize. -/
def computeQpIntegralCore (p : Params) (cfd : CrackFrontDefinition) (d : QpData) : ℚ :=
  let idx := p.crack_front_point_index
  let aux_du := auxDuOf d.aux_grad_disp
  let grad_q_cf := cfd.rotateToCrackFrontCoordsV idx d.grad_q
  let grad_disp_cf :=
    cfd.rotateToCrackFrontCoordsT idx (gradDispMat d.grad_disp_x d.grad_disp_y d.grad_disp_z)
  let stress_cf := cfd.rotateToCrackFrontCoordsT idx (symmToDense d.stress)
  let strain_cf := cfd.rotateToCrackFrontCoordsT idx (symmToDense d.strain)
  let grad_temp_cf := cfd.rotateToCrackFrontCoordsV idx d.grad_temp
  let dq := dqOf grad_q_cf
  let term1 := term1Of aux_du dq stress_cf
  let term2 := term2Of grad_disp_cf dq d.aux_stress
  let term3 := term3Of dq d.aux_stress strain_cf
  let term4 := term4Of p.has_temp d.scalar_q d.aux_stress d.thermal_coef grad_temp_cf
  let eq0 := term1 + term2 - term3 + term4
  let eq1 := if p.has_symmetry_plane then eq0 * 2 else eq0
  eq1 / qAvgSeg cfd idx

/-- Modelled from the spec: the auxiliary stress (and likewise `aux_du`) is
supplied by an external material, not part of the sampled source, already
expressed in the local crack-front frame; the spec lists a rotated `aux_stress`
among the inputs of the pointwise evaluator, and the source accordingly uses
`_aux_stress` with no further rotation. -/
def auxStressLocal (d : QpData) : Mat3 := d.aux_stress

/-- Refinement comparison definition following the spec words (section 4.4):
the pointwise integrand as a function of quantities already expressed in the
local crack-front frame. -/
def specLocalIntegrand (has_temp has_symmetry_plane : Bool) (scalar_q : ℚ)
    (grad_q_cf : Vec3) (grad_disp_cf stress_cf strain_cf : Mat3)
    (grad_temp_cf : Vec3) (aux_stress aux_du : Mat3) (coef norm : ℚ) : ℚ :=
  let dq : Mat3 := fun i j => if i = 0 then grad_q_cf j else 0
  let t1 := doubleContraction aux_du (matMul dq stress_cf)
  let t2 := grad_disp_cf 0 0 * matMul dq aux_stress 0 0 +
            grad_disp_cf 1 0 * matMul dq aux_stress 0 1 +
            grad_disp_cf 2 0 * matMul dq aux_stress 0 2
  let t3 := dq 0 0 * doubleContraction aux_stress strain_cf
  let t4 := if has_temp then
              scalar_q * (aux_stress 0 0 + aux_stress 1 1 + aux_stress 2 2) * coef *
                grad_temp_cf 0
            else 0
  let e0 := t1 + t2 - t3 + t4
  (if has_symmetry_plane then 2 * e0 else e0) / norm

/-- First-order Lagrange shape data for the current element, as produced by the
`FEBase` built in `computeIntegral` (source lines 228-236): `phi i qp` and
`dphi i qp` for node i at quadrature point qp. -/
structure ElemFE where
  nNodes : ℕ
  dim : ℕ
  phi : ℕ → ℕ → ℚ
  dphi : ℕ → ℕ → Vec3
  nodes : ℕ → ℕ

/-- Interpolated `scalar_q` at a quadrature point (source lines 114-116). -/
def interpQ (fe : ElemFE) (qN : ℕ → ℚ) (qp : ℕ) : ℚ :=
  ∑ i in Finset.range fe.nNodes, fe.phi i qp * qN i

/-- Interpolated `grad_q` at a quadrature point (source lines 118-119):
components at indices at or above the element dimension stay zero. -/
def interpGradQ (fe : ElemFE) (qN : ℕ → ℚ) (qp : ℕ) : Vec3 :=
  fun j => if (j : ℕ) < fe.dim then ∑ i in Finset.range fe.nNodes, fe.dphi i qp j * qN i else 0

/-- `ring_base = (_q_function_type == "TOPOLOGY") ? 0 : 1` (source line 240). -/
def ringBase (qft : QFunctionType) : ℕ :=
  match qft with
  | .Topology => 0
  | .Geometry => 1

/-- 32-bit unsigned subtraction, as performed on the `unsigned int` values
`_ring_index - ring_base` (source lines 249 and 252). -/
def u32sub (a b : ℕ) : ℕ := (a + 2 ^ 32 - b) % 2 ^ 32

/-- Nodal weight value: the selected generator invoked with the offset ring
index (source lines 240-255). -/
def qAtNode (p : Params) (cfd : CrackFrontDefinition) (node : ℕ) : ℚ :=
  let ring_base := ringBase p.q_function_type
  match p.q_function_type with
  | .Geometry =>
      cfd.DomainIntegralQFunction p.crack_front_point_index
        (u32sub p.ring_index ring_base) node
  | .Topology =>
      cfd.DomainIntegralTopologicalQFunction p.crack_front_point_index
        (u32sub p.ring_index ring_base) node

/-- One element: its shape data, quadrature rule size, quadrature weights
`JxW`, coordinate-system factors `coord`, and per-point field data. -/
structure ElemData where
  fe : ElemFE
  nQp : ℕ
  JxW : ℕ → ℚ
  coord : ℕ → ℚ
  fieldAt : ℕ → QpFieldData

/-- `computeQpIntegral` (source lines 105-221): interpolate `q` and its
gradient from the nodal values, then evaluate the integrand kernel. -/
def computeQpIntegral (p : Params) (cfd : CrackFrontDefinition) (e : ElemData) (qp : ℕ) : ℚ :=
  let qN : ℕ → ℚ := fun i => qAtNode p cfd (e.fe.nodes i)
  let d := e.fieldAt qp
  computeQpIntegralCore p cfd
    { scalar_q := interpQ e.fe qN qp
      grad_q := interpGradQ e.fe qN qp
      stress := d.stress
      strain := d.strain
      grad_disp_x := d.grad_disp_x
      grad_disp_y := d.grad_disp_y
      grad_disp_z := d.grad_disp_z
      grad_temp := d.grad_temp
      aux_stress := d.aux_stress
      aux_grad_disp := d.aux_grad_disp
      thermal_coef := d.thermal_coef }

/-- `computeIntegral` (source lines 223-260): quadrature loop
`sum += JxW[qp] * coord[qp] * computeQpIntegral()`. -/
def computeIntegral (p : Params) (cfd : CrackFrontDefinition) (e : ElemData) : ℚ :=
  ∑ qp in Finset.range e.nQp, e.JxW qp * e.coord qp * computeQpIntegral p cfd e qp

/-- `getValue` (source lines 92-103): `gatherSum` is the distributed reduction,
modelled as the sum of all element contributions; then the optional T-stress
correction, then the `K_factor` scaling.  The cached `_treat_as_2d` flag is set
in `initialSetup` from `treatAs2D()` and is modelled by reading the latter. -/
def getValue (p : Params) (cfd : CrackFrontDefinition) (contribs : List ℚ) : ℚ :=
  let integral_value := contribs.sum
  let integral_value :=
    if p.t_stress && !cfd.treatAs2D then
      integral_value +
        p.poissonsRatioParam *
          cfd.getCrackFrontTangentialStrain p.crack_front_point_index
    else integral_value
  p.K_factor * integral_value

/-- The fatal configuration message raised by the constructor (source lines 78-81). -/
def thermalErrMsg : String :=
  "To include thermal strain term in interaction integral, must both couple temperature in DomainIntegral block and compute thermal expansion property in material model using compute_InteractionIntegral = true."

/-- The constructor check (source lines 77-84): `mooseError` exactly when
temperature is coupled but the thermal-expansion material property is absent. -/
def constructorCheck (has_temp has_thermal_coef : Bool) : Except String Unit :=
  if has_temp && !has_thermal_coef then Except.error thermalErrMsg
  else Except.ok ()

/-- Construction followed by one element evaluation: the only error site is the
constructor check; the integration loop itself is a total function. -/
def evaluateElement (p : Params) (cfd : CrackFrontDefinition) (has_thermal_coef : Bool)
    (e : ElemData) : Except String ℚ :=
  match constructorCheck p.has_temp has_thermal_coef with
  | Except.error msg => Except.error msg
  | Except.ok _ => Except.ok (computeIntegral p cfd e)

def exceptIsOk : Except String ℚ → Bool
  | Except.ok _ => true
  | Except.error _ => false

/-- Concrete crack-front definition with identity rotations, unit segment
lengths, zero tangential strain, and generators returning the ring index. -/
def idCfd : CrackFrontDefinition where
  rotateToCrackFrontCoordsV := fun _ v => v
  rotateToCrackFrontCoordsT := fun _ T => T
  treatAs2D := false
  getCrackFrontForwardSegmentLength := fun _ => 1
  getCrackFrontBackwardSegmentLength := fun _ => 1
  getCrackFrontTangentialStrain := fun _ => 0
  DomainIntegralQFunction := fun _ r _ => (r : ℚ)
  DomainIntegralTopologicalQFunction := fun _ r _ => (r : ℚ)

/-- `idCfd` with the front treated as 2D. -/
def idCfd2d : CrackFrontDefinition := { idCfd with treatAs2D := true }

/-- `idCfd` with both segment lengths zero (the degenerate normalization case). -/
def idCfd0seg : CrackFrontDefinition :=
  { idCfd with
    getCrackFrontForwardSegmentLength := fun _ => 0
    getCrackFrontBackwardSegmentLength := fun _ => 0 }

/-- Default concrete parameter set used by the concrete instances. -/
def pDefault : Params where
  crack_front_point_index := 0
  has_temp := false
  K_factor := 2
  has_symmetry_plane := false
  t_stress := false
  poissonsRatioParam := 3 / 10
  ring_index := 1
  q_function_type := QFunctionType.Geometry

/-- `pDefault` with Geometry weight kind and `ring_index = 0`. -/
def pGeomRing0 : Params := { pDefault with ring_index := 0 }

/-- `pDefault` with temperature coupled. -/
def pTemp : Params := { pDefault with has_temp := true }

/-- Zero field data at a quadrature point. -/
def zeroQpField : QpFieldData where
  stress := symmZero
  strain := symmZero
  grad_disp_x := vzero
  grad_disp_y := vzero
  grad_disp_z := vzero
  grad_temp := vzero
  aux_stress := mzero
  aux_grad_disp := mzero
  thermal_coef := 0

/-- A one-node, one-quadrature-point concrete element. -/
def feEx : ElemFE where
  nNodes := 1
  dim := 1
  phi := fun _ _ => 1
  dphi := fun _ _ => vzero
  nodes := fun _ => 0

/-- A concrete element with zero field data everywhere. -/
def elemZero : ElemData where
  fe := feEx
  nQp := 1
  JxW := fun _ => 1
  coord := fun _ => 1
  fieldAt := fun _ => zeroQpField

/-- Concrete auxiliary stress with trace 5. -/
def auxStressEx : Mat3 := ![![1, 0, 0], ![0, 2, 0], ![0, 0, 2]]

/-- Concrete temperature gradient with x1-component 2. -/
def gradTempEx : Vec3 := ![2, 0, 0]

/-- `pDefault` with the Topology weight kind. -/
def pTopo : Params := { pDefault with q_function_type := QFunctionType.Topology }

/-- Concrete quadrature-point data for the thermal-term scenario: unit `q`,
auxiliary stress of trace 5, unit thermal coefficient, temperature gradient
with x1-component 2. -/
def qpDataEx : QpData where
  scalar_q := 1
  grad_q := vzero
  stress := symmZero
  strain := symmZero
  grad_disp_x := vzero
  grad_disp_y := vzero
  grad_disp_z := vzero
  grad_temp := gradTempEx
  aux_stress := auxStressEx
  aux_grad_disp := mzero
  thermal_coef := 1

theorem dqOf_eq (g : Vec3) : dqOf g = fun i j => if i = 0 then g j else 0 := by
  funext i j
  simp [dqOf, crack_direction]

theorem computeQpIntegralCore_zero_aux (p : Params) (cfd : CrackFrontDefinition) (d : QpData)
    (h1 : d.aux_stress = mzero) (h2 : d.aux_grad_disp = mzero) :
    computeQpIntegralCore p cfd d = 0 := by
  simp [computeQpIntegralCore, term1Of, term2Of, term3Of, term4Of, auxDuOf,
    doubleContraction, matMul, h1, h2, mzero]

/-- C1: at every quadrature point the integrand equals
`(term1 + term2 - term3 + term4) / norm`, with the terms as in the source, the
sum doubled exactly when a symmetry plane is declared (before the division),
and `norm` the normalization divisor `q_avg_seg`.  The second conjunct is the
exact-doubling property. -/
theorem C1_integrand_formula (p : Params) (cfd : CrackFrontDefinition) (d : QpData) :
    (computeQpIntegralCore p cfd d =
      (if p.has_symmetry_plane then 2 else 1) *
        (term1Of (auxDuOf d.aux_grad_disp)
            (dqOf (cfd.rotateToCrackFrontCoordsV p.crack_front_point_index d.grad_q))
            (cfd.rotateToCrackFrontCoordsT p.crack_front_point_index (symmToDense d.stress)) +
          term2Of
            (cfd.rotateToCrackFrontCoordsT p.crack_front_point_index
              (gradDispMat d.grad_disp_x d.grad_disp_y d.grad_disp_z))
            (dqOf (cfd.rotateToCrackFrontCoordsV p.crack_front_point_index d.grad_q))
            d.aux_stress -
          term3Of (dqOf (cfd.rotateToCrackFrontCoordsV p.crack_front_point_index d.grad_q))
            d.aux_stress
            (cfd.rotateToCrackFrontCoordsT p.crack_front_point_index (symmToDense d.strain)) +
          term4Of p.has_temp d.scalar_q d.aux_stress d.thermal_coef
            (cfd.rotateToCrackFrontCoordsV p.crack_front_point_index d.grad_temp)) /
        qAvgSeg cfd p.crack_front_point_index) ∧
    computeQpIntegralCore { p with has_symmetry_plane := true } cfd d =
      2 * computeQpIntegralCore { p with has_symmetry_plane := false } cfd d := by
  constructor
  · cases h : p.has_symmetry_plane <;> simp [computeQpIntegralCore, h] <;> ring
  · simp [computeQpIntegralCore]
    ring

/-- C2: the integrand kernel factors through the crack-front-frame quantities:
the q-gradient, displacement gradient, stress, strain and temperature gradient
are rotated with the crack-front rotation for the given point index, and the
auxiliary stress and displacement gradient enter already expressed in that
frame, before the four terms are computed. -/
theorem C2_rotated_before_terms (p : Params) (cfd : CrackFrontDefinition) (d : QpData) :
    computeQpIntegralCore p cfd d =
      specLocalIntegrand p.has_temp p.has_symmetry_plane d.scalar_q
        (cfd.rotateToCrackFrontCoordsV p.crack_front_point_index d.grad_q)
        (cfd.rotateToCrackFrontCoordsT p.crack_front_point_index
          (gradDispMat d.grad_disp_x d.grad_disp_y d.grad_disp_z))
        (cfd.rotateToCrackFrontCoordsT p.crack_front_point_index (symmToDense d.stress))
        (cfd.rotateToCrackFrontCoordsT p.crack_front_point_index (symmToDense d.strain))
        (cfd.rotateToCrackFrontCoordsV p.crack_front_point_index d.grad_temp)
        (auxStressLocal d) (auxDuOf d.aux_grad_disp) d.thermal_coef
        (qAvgSeg cfd p.crack_front_point_index) := by
  rw [specLocalIntegrand]
  cases h : p.has_symmetry_plane <;>
    simp [computeQpIntegralCore, h, term1Of, term2Of, term3Of, term4Of, dqOf_eq,
      auxStressLocal] <;> ring

/-- C3: the finalized value equals `K_factor` times the reduced sum of element
contributions plus, exactly once and only when T-stress is requested and the
front is not 2D, Poisson ratio times the crack-front tangential strain; with
two contributions of 3, a 2D front and no T-stress, the result is
`K_factor * 6`. -/
theorem C3_getValue_formula (p : Params) (cfd : CrackFrontDefinition) (contribs : List ℚ) :
    (getValue p cfd contribs =
      p.K_factor * (contribs.sum +
        if p.t_stress && !cfd.treatAs2D then
          p.poissonsRatioParam * cfd.getCrackFrontTangentialStrain p.crack_front_point_index
        else 0)) ∧
    (cfd.treatAs2D = true → p.t_stress = false →
      getValue p cfd [3, 3] = p.K_factor * 6) := by
  constructor
  · cases h : (p.t_stress && !cfd.treatAs2D) <;> simp [getValue, h] <;> ring
  · intro h2d ht
    simp [getValue, h2d, ht]
    norm_num

theorem C3_witness :
    getValue pDefault idCfd2d [3, 3] = pDefault.K_factor * 6 :=
  (C3_getValue_formula pDefault idCfd2d [3, 3]).2 rfl rfl

/-- C4: when the front is treated as 2D the normalization divisor is exactly 1
and the T-stress correction is never added (for every value of the t_stress
flag); otherwise the divisor is the average of the forward and backward
segment lengths at the crack-front point. -/
theorem C4_2d_handling (p : Params) (cfd : CrackFrontDefinition) (contribs : List ℚ) :
    (cfd.treatAs2D = true →
      qAvgSeg cfd p.crack_front_point_index = 1 ∧
      getValue p cfd contribs = p.K_factor * contribs.sum) ∧
    (cfd.treatAs2D = false →
      qAvgSeg cfd p.crack_front_point_index =
        (cfd.getCrackFrontForwardSegmentLength p.crack_front_point_index +
         cfd.getCrackFrontBackwardSegmentLength p.crack_front_point_index) / 2) := by
  constructor
  · intro h
    exact ⟨by simp [qAvgSeg, h], by simp [getValue, h]⟩
  · intro h
    simp [qAvgSeg, h]

theorem C4_witness :
    (qAvgSeg idCfd2d 0 = 1 ∧
      getValue { pDefault with t_stress := true } idCfd2d [3] =
        Params.K_factor { pDefault with t_stress := true } * List.sum [3]) ∧
    qAvgSeg idCfd 0 =
      (idCfd.getCrackFrontForwardSegmentLength 0 +
       idCfd.getCrackFrontBackwardSegmentLength 0) / 2 :=
  ⟨(C4_2d_handling { pDefault with t_stress := true } idCfd2d [3]).1 rfl,
   (C4_2d_handling pDefault idCfd []).2 rfl⟩

/-- C5: term4 is exactly zero when temperature is not coupled; when coupled it
equals `q * trace(aux_stress) * coef * (rotated grad_temp)(0)` and nothing
else; at `q = 1`, trace 5, coefficient 1, x1 temperature gradient 2 it is 10. -/
theorem C5_term4 (p : Params) (cfd : CrackFrontDefinition) (d : QpData) :
    (p.has_temp = false →
      term4Of p.has_temp d.scalar_q d.aux_stress d.thermal_coef
        (cfd.rotateToCrackFrontCoordsV p.crack_front_point_index d.grad_temp) = 0) ∧
    (p.has_temp = true →
      term4Of p.has_temp d.scalar_q d.aux_stress d.thermal_coef
        (cfd.rotateToCrackFrontCoordsV p.crack_front_point_index d.grad_temp) =
      d.scalar_q * (d.aux_stress 0 0 + d.aux_stress 1 1 + d.aux_stress 2 2) *
        d.thermal_coef *
        cfd.rotateToCrackFrontCoordsV p.crack_front_point_index d.grad_temp 0) ∧
    term4Of true 1 auxStressEx 1 (idCfd.rotateToCrackFrontCoordsV 0 gradTempEx) = 10 := by
  refine ⟨fun h => by simp [term4Of, h], fun h => by simp [term4Of, h], ?_⟩
  norm_num [term4Of, auxStressEx, gradTempEx, idCfd]

theorem C5_witness :
    term4Of pDefault.has_temp qpDataEx.scalar_q qpDataEx.aux_stress qpDataEx.thermal_coef
      (idCfd.rotateToCrackFrontCoordsV pDefault.crack_front_point_index qpDataEx.grad_temp)
      = 0 ∧
    term4Of pTemp.has_temp qpDataEx.scalar_q qpDataEx.aux_stress qpDataEx.thermal_coef
      (idCfd.rotateToCrackFrontCoordsV pTemp.crack_front_point_index qpDataEx.grad_temp) =
      qpDataEx.scalar_q *
        (qpDataEx.aux_stress 0 0 + qpDataEx.aux_stress 1 1 + qpDataEx.aux_stress 2 2) *
        qpDataEx.thermal_coef *
        idCfd.rotateToCrackFrontCoordsV pTemp.crack_front_point_index qpDataEx.grad_temp 0 :=
  ⟨(C5_term4 pDefault idCfd qpDataEx).1 rfl, (C5_term4 pTemp idCfd qpDataEx).2.1 rfl⟩

/-- C6: construction fails with the fatal configuration message exactly when
temperature is coupled but the thermal-expansion property is unavailable; when
construction succeeds the whole element evaluation returns a value, so no
error can arise during the integration loop. -/
theorem C6_setup_error (p : Params) (cfd : CrackFrontDefinition) (hc : Bool) (e : ElemData) :
    ((∃ msg, evaluateElement p cfd hc e = Except.error msg) ↔
      p.has_temp = true ∧ hc = false) ∧
    (p.has_temp = true ∧ hc = false →
      evaluateElement p cfd hc e = Except.error thermalErrMsg) ∧
    (¬(p.has_temp = true ∧ hc = false) →
      evaluateElement p cfd hc e = Except.ok (computeIntegral p cfd e)) := by
  cases hp : p.has_temp <;> cases hhc : hc <;>
    simp [evaluateElement, constructorCheck, hp, hhc]

theorem C6_witness :
    evaluateElement pTemp idCfd false elemZero = Except.error thermalErrMsg ∧
    evaluateElement pDefault idCfd true elemZero =
      Except.ok (computeIntegral pDefault idCfd elemZero) :=
  ⟨(C6_setup_error pTemp idCfd false elemZero).2.1 ⟨rfl, rfl⟩,
   (C6_setup_error pDefault idCfd true elemZero).2.2 (by decide)⟩

/-- C7: for every node the generator receives `ring_index - 1` for the
Geometry weight kind and `ring_index` unchanged for the Topology kind, the
offset being applied before the generator is invoked. -/
theorem C7_ring_offset (p : Params) (cfd : CrackFrontDefinition) (node : ℕ) :
    (p.q_function_type = QFunctionType.Geometry → 1 ≤ p.ring_index →
      p.ring_index < 2 ^ 32 →
      qAtNode p cfd node =
        cfd.DomainIntegralQFunction p.crack_front_point_index (p.ring_index - 1) node) ∧
    (p.q_function_type = QFunctionType.Topology → p.ring_index < 2 ^ 32 →
      qAtNode p cfd node =
        cfd.DomainIntegralTopologicalQFunction p.crack_front_point_index p.ring_index node) := by
  constructor
  · intro hq h1 h32
    have hsub : u32sub p.ring_index (ringBase QFunctionType.Geometry) = p.ring_index - 1 := by
      simp only [u32sub, ringBase]
      omega
    simp [qAtNode, hq, hsub]
  · intro hq h32
    have hsub : u32sub p.ring_index (ringBase QFunctionType.Topology) = p.ring_index := by
      simp only [u32sub, ringBase]
      omega
    simp [qAtNode, hq, hsub]

theorem C7_witness :
    qAtNode pDefault idCfd 5 =
      idCfd.DomainIntegralQFunction pDefault.crack_front_point_index
        (pDefault.ring_index - 1) 5 ∧
    qAtNode pTopo idCfd 5 =
      idCfd.DomainIntegralTopologicalQFunction pTopo.crack_front_point_index
        pTopo.ring_index 5 :=
  ⟨(C7_ring_offset pDefault idCfd 5).1 rfl (by decide) (by decide),
   (C7_ring_offset pTopo idCfd 5).2 rfl (by decide)⟩

/-- C8 counterexample: with the front not treated as 2D and both segment
lengths zero at the crack-front point, the evaluation does not fail with an
error; it completes and returns a value. -/
theorem C8_counterexample :
    idCfd0seg.treatAs2D = false ∧
    idCfd0seg.getCrackFrontForwardSegmentLength 0 = 0 ∧
    idCfd0seg.getCrackFrontBackwardSegmentLength 0 = 0 ∧
    exceptIsOk (evaluateElement pDefault idCfd0seg true elemZero) = true ∧
    evaluateElement pDefault idCfd0seg true elemZero =
      Except.ok (computeIntegral pDefault idCfd0seg elemZero) := by
  refine ⟨rfl, rfl, rfl, rfl, ?_⟩
  simp [evaluateElement, constructorCheck, pDefault]

/-- C8 amended: the source performs no zero-segment-length check: when the
front is not 2D and both segment lengths are zero, the normalization divisor
is 0 and the evaluation still completes without error, the division being
performed unconditionally. -/
theorem C8_amended_no_zero_check (p : Params) (cfd : CrackFrontDefinition) (e : ElemData)
    (h2d : cfd.treatAs2D = false)
    (hf : cfd.getCrackFrontForwardSegmentLength p.crack_front_point_index = 0)
    (hb : cfd.getCrackFrontBackwardSegmentLength p.crack_front_point_index = 0) :
    qAvgSeg cfd p.crack_front_point_index = 0 ∧
    evaluateElement p cfd true e = Except.ok (computeIntegral p cfd e) := by
  constructor
  · simp [qAvgSeg, h2d, hf, hb]
  · cases hp : p.has_temp <;> simp [evaluateElement, constructorCheck, hp]

theorem C8_amended_witness :
    qAvgSeg idCfd0seg 0 = 0 ∧
    evaluateElement pDefault idCfd0seg true elemZero =
      Except.ok (computeIntegral pDefault idCfd0seg elemZero) :=
  C8_amended_no_zero_check pDefault idCfd0seg elemZero rfl rfl rfl

/-- C9: if the stress, strain, auxiliary stress and auxiliary displacement
gradient are zero at every quadrature point of every element (so in
particular the crack-front tangential strain, a reading of the zero strain
field, is zero), the finalized integral is exactly zero. -/
theorem C9_zero_fields (p : Params) (cfd : CrackFrontDefinition) (es : List ElemData)
    (hfields : ∀ e ∈ es, ∀ qp,
      (e.fieldAt qp).stress = symmZero ∧ (e.fieldAt qp).strain = symmZero ∧
      (e.fieldAt qp).aux_stress = mzero ∧ (e.fieldAt qp).aux_grad_disp = mzero)
    (hts : cfd.getCrackFrontTangentialStrain p.crack_front_point_index = 0) :
    getValue p cfd (es.map (computeIntegral p cfd)) = 0 := by
  have hel : ∀ e ∈ es, computeIntegral p cfd e = 0 := by
    intro e he
    unfold computeIntegral
    apply Finset.sum_eq_zero
    intro qp _
    have h := hfields e he qp
    have hcore : computeQpIntegral p cfd e qp = 0 := by
      unfold computeQpIntegral
      exact computeQpIntegralCore_zero_aux p cfd _ h.2.2.1 h.2.2.2
    rw [hcore, mul_zero]
  have hsum : (es.map (computeIntegral p cfd)).sum = 0 := by
    apply List.sum_eq_zero
    intro x hx
    rcases List.mem_map.mp hx with ⟨e, he, rfl⟩
    exact hel e he
  simp [getValue, hsum, hts]

theorem C9_witness :
    getValue pDefault idCfd ([elemZero].map (computeIntegral pDefault idCfd)) = 0 :=
  C9_zero_fields pDefault idCfd [elemZero]
    (by
      intro e he qp
      rw [List.mem_singleton] at he
      subst he
      exact ⟨rfl, rfl, rfl, rfl⟩)
    rfl

/-- C10: the Geometry weight kind subtracts the ring base 1 from `ring_index`
as a 32-bit unsigned value, so the public value `ring_index = 0` wraps and the
generator is invoked with ring index 4294967295. -/
theorem C10_ring0_wrap :
    u32sub 0 (ringBase QFunctionType.Geometry) = 4294967295 ∧
    qAtNode pGeomRing0 idCfd 7 = ((4294967295 : ℕ) : ℚ) := by
  constructor
  · decide
  · rfl

end InteractionIntegral
